import Mathlib

/-!
Verification of the infoview update pipeline from
`src/lean4-infoview/src/infoview/info.tsx`: a shallow embedding of the
throttling scheduler (`useDelayedThrottled`), the fetch cycle run by
`triggerUpdate` in `InfoAux`, the atomic display-commit mechanism
(`mkDisplayProps` / `displayProps` / `shouldUpdateDisplay`), the render gates of
`InfoDisplay`, the pause layer, and the widget query path.  Helper functions
that live in modules outside the reviewed sources (`usePausableState`,
`discardMethodNotFound`, `RangeHelpers.contains`, `goalsToString`) are modelled
from the specification and marked as such in their doc comments.
-/

namespace Infoview

/-- Position of interest: document identifier plus line and column
(`DocumentPosition` from the util module, used throughout info.tsx). -/
structure DocumentPosition where
  uri : String
  line : Nat
  character : Nat
deriving DecidableEq, Repr

/-- Status of the info view, info.tsx line 14:
`type InfoStatus = 'loading' | 'updating' | 'error' | 'ready'`. -/
inductive InfoStatus where
  | loading
  | updating
  | error
  | ready
deriving DecidableEq, Repr

/-- Kind of an info view, info.tsx line 15: `type InfoKind = 'cursor' | 'pin'`. -/
inductive InfoKind where
  | cursor
  | pin
deriving DecidableEq, Repr

/-- Interactive goals, modelled as the list of pretty-printed goal states; the
internal structure of one goal is irrelevant to the pipeline. -/
structure InteractiveGoals where
  goals : List String
deriving DecidableEq, Repr

/-- A single interactive (term) goal, modelled as its pretty-printed text. -/
structure InteractiveGoal where
  goal : String
deriving DecidableEq, Repr

/-! ## The throttling scheduler, `useDelayedThrottled` (info.tsx 258-274) -/

/-- State of the scheduler returned by `useDelayedThrottled`: `waiting` mirrors
the ref `waiting.current` (a timer is pending); `callbackRef` mirrors
`callbackRef.current`, the action the timer will run (line 261 re-registers it
on every render, so each call of the returned closure sees the caller's current
action); `fireAt` is the absolute time at which the pending `setTimeout` fires
(`none` when no timer is pending). -/
structure SchedState (A : Type) where
  waiting : Bool
  callbackRef : Option A
  fireAt : Option Nat
deriving DecidableEq, Repr

/-- Scheduler state at mount: no timer pending, nothing registered. -/
def SchedState.start (A : Type) : SchedState A :=
  { waiting := false, callbackRef := none, fireAt := none }

/-- One call, at time `t`, of the closure returned by `useDelayedThrottled`
with the caller's action `a` (info.tsx 262-273; line 261 registers `a` in
`callbackRef` before the closure runs).  When no timer is pending it starts
one, to fire at `t + ms`, and the call awaits it; when a timer is already
pending the call only re-registers the action and returns at once.  The
returned Bool is `true` exactly when the call scheduled a timer (and hence
waits for it). -/
def SchedState.trigger (ms t : Nat) (a : A) (s : SchedState A) : SchedState A × Bool :=
  if s.waiting then ({ s with callbackRef := some a }, false)
  else ({ s with callbackRef := some a, waiting := true, fireAt := some (t + ms) }, true)

/-- The pending timer fires (info.tsx 266-269): `waiting.current = false`, then
the currently registered callback runs.  Returns the new state together with
the action that runs. -/
def SchedState.fire (s : SchedState A) : SchedState A × Option A :=
  ({ s with waiting := false, fireAt := none }, s.callbackRef)

/-- Fold a sequence of timed trigger calls over the scheduler state. -/
def SchedState.triggerAll (ms : Nat) (tas : List (Nat × A)) (s : SchedState A) : SchedState A :=
  tas.foldl (fun s ta => (SchedState.trigger ms ta.1 ta.2 s).1) s

/-- Whether every call in a sequence of trigger calls returned immediately,
without scheduling a timer of its own. -/
def SchedState.triggerAllImmediate (ms : Nat) (tas : List (Nat × A)) (s : SchedState A) : Bool :=
  (tas.foldl (fun (p : SchedState A × Bool) ta =>
      let r := SchedState.trigger ms ta.1 ta.2 p.1
      (r.1, p.2 && !r.2)) (s, true)).2

/-! ## Scheduling delay selection (info.tsx 246-251 and 329) -/

/-- A position inside a document, as used in progress ranges. -/
structure LspPosition where
  line : Nat
  character : Nat
deriving DecidableEq, Repr

/-- A range inside a document; the source field `end` is called `stop` here
because `end` is a Lean keyword. -/
structure LspRange where
  start : LspPosition
  stop : LspPosition
deriving DecidableEq, Repr

/-- Modelled from the spec: `RangeHelpers.contains` lives in the util module,
which is outside the reviewed sources.  The spec says the backend is "busy
processing the document" at a position when one of the reported progress
ranges contains it; containment is the standard order on document positions:
not before the start of the range and not after its end. -/
def RangeHelpers.contains (r : LspRange) (p : DocumentPosition) : Bool :=
  (decide (r.start.line < p.line) ||
    (decide (r.start.line = p.line) && decide (r.start.character ≤ p.character))) &&
  (decide (p.line < r.stop.line) ||
    (decide (p.line = r.stop.line) && decide (p.character ≤ r.stop.character)))

/-- An entry of the progress information published for one document. -/
structure ProcessingInfo where
  range : LspRange
deriving DecidableEq, Repr

/-- The check `useIsProcessingAt` (info.tsx 246-251): look up the progress
entries for the position's document and test whether some reported range
contains the position. -/
def useIsProcessingAt (allProgress : List (String × List ProcessingInfo))
    (p : DocumentPosition) : Bool :=
  match allProgress.lookup p.uri with
  | none => false
  | some processing => processing.any (fun i => RangeHelpers.contains i.range p)

/-- Delay handed to `useDelayedThrottled` at info.tsx line 329:
`serverIsProcessing ? 500 : 50`. -/
def triggerUpdateDelay (serverIsProcessing : Bool) : Nat :=
  if serverIsProcessing then 500 else 50

/-! ## Error values and fetch outcomes (info.tsx 350-361, 363-376) -/

/-- A JavaScript error value as classified by `triggerUpdate`'s catch handler
and `onError` (info.tsx 350-361 and 370-375): a plain string, an object with an
optional numeric `code` field and a JSON serialization, or `undefined` (whose
`JSON.stringify` is `undefined`). -/
inductive ErrValue where
  | str (s : String)
  | obj (code : Option Int) (json : String)
  | undef
deriving DecidableEq, Repr

/-- Value of `err?.code` tested by the catch handler at info.tsx line 371. -/
def ErrValue.code : ErrValue → Option Int
  | .obj c _ => c
  | _ => none

/-- Value of `typeof err === 'string' ? err : JSON.stringify(err)` (line 351);
`none` models a serialization that is `undefined`. -/
def ErrValue.serialize : ErrValue → Option String
  | .str s => some s
  | .obj _ j => some j
  | .undef => none

/-- Outcome of `await allReq` in one fetch cycle (info.tsx 366): either both
goal requests resolve (each possibly to `undefined`), or the awaited
`Promise.all` rejects with an error value. -/
inductive FetchOutcome where
  | success (goals : Option InteractiveGoals) (termGoal : Option InteractiveGoal)
  | failure (err : ErrValue)
deriving DecidableEq, Repr

/-! ## The `InfoAux` state and the fetch cycle (info.tsx 303-380) -/

/-- Props committed for display: `mkDisplayProps` at info.tsx 321 captures
`pos`, `goals`, `termGoal` and `error` in one piece of state. -/
structure DisplayProps where
  pos : DocumentPosition
  goals : Option InteractiveGoals
  termGoal : Option InteractiveGoal
  error : Option String
deriving DecidableEq, Repr

/-- State of the `InfoAux` component (info.tsx 311-327): the live cells
`status`, `goals`, `termGoal`, `error`, the committed `displayProps` read by
`InfoDisplay`, and the `shouldUpdateDisplay` flag. -/
structure InfoAuxState where
  status : InfoStatus
  goals : Option InteractiveGoals
  termGoal : Option InteractiveGoal
  error : Option String
  displayProps : DisplayProps
  shouldUpdateDisplay : Bool
deriving DecidableEq, Repr

/-- State at mount (info.tsx 311-314 and 322): status `loading`, no goals, no
term goal, no error; `displayProps` captures the initial cells. -/
def InfoAuxState.start (pos : DocumentPosition) : InfoAuxState :=
  { status := .loading, goals := none, termGoal := none, error := none,
    displayProps := ⟨pos, none, none, none⟩, shouldUpdateDisplay := false }

/-- The `mkDisplayProps` closure (info.tsx 321): captures the current `pos`
together with the current goal, term-goal and error cells. -/
def InfoAuxState.mkDisplayProps (pos : DocumentPosition) (s : InfoAuxState) : DisplayProps :=
  ⟨pos, s.goals, s.termGoal, s.error⟩

/-- The commit render (info.tsx 324-327): when `shouldUpdateDisplay` is set,
`displayProps` is replaced wholesale by `mkDisplayProps()` and the flag is
cleared; otherwise the render leaves the committed props untouched. -/
def InfoAuxState.commitDisplay (pos : DocumentPosition) (s : InfoAuxState) : InfoAuxState :=
  if s.shouldUpdateDisplay then
    { s with displayProps := s.mkDisplayProps pos, shouldUpdateDisplay := false }
  else s

/-- The `onError` handler (info.tsx 350-361): serialize the error; when the
serialization is the empty-object sentinel or `undefined`, clear the error
cell; otherwise record a human-readable message and set status `error`. -/
def InfoAuxState.onError (err : ErrValue) (s : InfoAuxState) : InfoAuxState :=
  match err.serialize with
  | none => { s with error := none }
  | some errS =>
    if errS = "\x7b\x7d" then { s with error := none }
    else { s with error := some ("Error fetching goals: " ++ errS), status := .error }

/-- One run of the throttled callback in `triggerUpdate` (info.tsx 329-378),
given the outcome of the awaited requests, followed by the render it provokes:
`setStatus('updating')` (330); on success `setGoals`, `setTermGoal`,
`setStatus('ready')` (367-369); on a failure with code -32801 re-invoke
`triggerUpdate` and return at once, so `setShouldUpdateDisplay` is skipped
(371-374); on any other failure run `onError` (375); finally
`setShouldUpdateDisplay(true)` (377) and the commit render (324-327).
Returns the new state together with the list of positions with which
`triggerUpdate` was re-invoked. -/
def runCycle (pos : DocumentPosition) (outcome : FetchOutcome) (s : InfoAuxState) :
    InfoAuxState × List DocumentPosition :=
  let s1 : InfoAuxState := { s with status := .updating }
  match outcome with
  | .success gs tg =>
      let s2 : InfoAuxState :=
        { s1 with goals := gs, termGoal := tg, status := .ready, shouldUpdateDisplay := true }
      (s2.commitDisplay pos, [])
  | .failure err =>
      if err.code = some (-32801) then (s1, [pos])
      else
        let s2 : InfoAuxState := { s1.onError err with shouldUpdateDisplay := true }
        (s2.commitDisplay pos, [])

/-! ## What `InfoDisplay` renders (info.tsx 135-140, 182-206) -/

/-- The goal-state portions of `InfoDisplay`'s output: the error block shows
iff the status is `error` and an error message is present (line 137); the
goals and term-goal blocks show iff the status is not `error` and their data
is present (lines 138-139). -/
structure RenderedInfo where
  shownError : Option String
  shownGoals : Option InteractiveGoals
  shownTermGoal : Option InteractiveGoal
deriving DecidableEq, Repr

/-- Render the committed props under the live status, following the gates
`hasError`, `hasGoals`, `hasTermGoal` of info.tsx 137-139. -/
def renderInfo (status : InfoStatus) (d : DisplayProps) : RenderedInfo :=
  { shownError := if status = .error then d.error else none,
    shownGoals := if status = .error then none else d.goals,
    shownTermGoal := if status = .error then none else d.termGoal }

/-! ## Provenance-tracked semantics

An instrumented variant of the fetch-cycle semantics in which every state cell
carries the index of the fetch cycle that last wrote it (index 0 standing for
the initial mount).  The transitions mirror `runCycle` step for step; the
erasure lemma `runCycleT_erase` below checks that forgetting the tags recovers
the plain semantics exactly. -/

/-- A value tagged with the index of the fetch cycle that produced it. -/
structure Tagged (α : Type) where
  val : α
  src : Nat
deriving DecidableEq, Repr

/-- Committed display props with provenance tags on every field. -/
structure TrackedProps where
  pos : Tagged DocumentPosition
  goals : Tagged (Option InteractiveGoals)
  termGoal : Tagged (Option InteractiveGoal)
  error : Tagged (Option String)
deriving DecidableEq, Repr

/-- The `InfoAux` state with provenance tags on every cell. -/
structure TrackedState where
  status : Tagged InfoStatus
  goals : Tagged (Option InteractiveGoals)
  termGoal : Tagged (Option InteractiveGoal)
  error : Tagged (Option String)
  displayProps : TrackedProps
  shouldUpdateDisplay : Bool
deriving DecidableEq, Repr

/-- Forget the provenance tags of committed props. -/
def TrackedProps.erase (d : TrackedProps) : DisplayProps :=
  ⟨d.pos.val, d.goals.val, d.termGoal.val, d.error.val⟩

/-- Forget the provenance tags of a tracked state. -/
def TrackedState.erase (s : TrackedState) : InfoAuxState :=
  { status := s.status.val, goals := s.goals.val, termGoal := s.termGoal.val,
    error := s.error.val, displayProps := s.displayProps.erase,
    shouldUpdateDisplay := s.shouldUpdateDisplay }

/-- Tracked state at mount, every cell written by "cycle" 0. -/
def TrackedState.start (pos : DocumentPosition) : TrackedState :=
  { status := ⟨.loading, 0⟩, goals := ⟨none, 0⟩, termGoal := ⟨none, 0⟩, error := ⟨none, 0⟩,
    displayProps := ⟨⟨pos, 0⟩, ⟨none, 0⟩, ⟨none, 0⟩, ⟨none, 0⟩⟩,
    shouldUpdateDisplay := false }

/-- Tracked `mkDisplayProps`: the captured `pos` is the one current at the
commit render of cycle `cyc`; the other cells keep their own provenance. -/
def TrackedState.mkDisplayProps (cyc : Nat) (pos : DocumentPosition) (s : TrackedState) :
    TrackedProps :=
  ⟨⟨pos, cyc⟩, s.goals, s.termGoal, s.error⟩

/-- Tracked commit render, mirroring `InfoAuxState.commitDisplay`. -/
def TrackedState.commitDisplay (cyc : Nat) (pos : DocumentPosition) (s : TrackedState) :
    TrackedState :=
  if s.shouldUpdateDisplay then
    { s with displayProps := s.mkDisplayProps cyc pos, shouldUpdateDisplay := false }
  else s

/-- Tracked `onError`, mirroring `InfoAuxState.onError`; the cells it writes
are tagged with the running cycle's index. -/
def TrackedState.onError (cyc : Nat) (err : ErrValue) (s : TrackedState) : TrackedState :=
  match err.serialize with
  | none => { s with error := ⟨none, cyc⟩ }
  | some errS =>
    if errS = "\x7b\x7d" then { s with error := ⟨none, cyc⟩ }
    else { s with error := ⟨some ("Error fetching goals: " ++ errS), cyc⟩,
                  status := ⟨.error, cyc⟩ }

/-- Tracked fetch cycle with index `cyc`, mirroring `runCycle`. -/
def runCycleT (cyc : Nat) (pos : DocumentPosition) (outcome : FetchOutcome)
    (s : TrackedState) : TrackedState × List DocumentPosition :=
  let s1 : TrackedState := { s with status := ⟨.updating, cyc⟩ }
  match outcome with
  | .success gs tg =>
      let s2 : TrackedState :=
        { s1 with goals := ⟨gs, cyc⟩, termGoal := ⟨tg, cyc⟩, status := ⟨.ready, cyc⟩,
                  shouldUpdateDisplay := true }
      (s2.commitDisplay cyc pos, [])
  | .failure err =>
      if err.code = some (-32801) then (s1, [pos])
      else
        let s2 : TrackedState := { s1.onError cyc err with shouldUpdateDisplay := true }
        (s2.commitDisplay cyc pos, [])

/-- Run a list of fetch cycles in order, numbering them from `n`. -/
def runCyclesT (pos : DocumentPosition) : Nat → List FetchOutcome → TrackedState → TrackedState
  | _, [], s => s
  | n, o :: os, s => runCyclesT pos (n + 1) os (runCycleT n pos o s).1

/-! ## The pause layer of `InfoDisplay` (info.tsx 92-103) -/

/-- State of `InfoDisplay`'s pause machinery: `isPaused` is the state held by
`usePausableState`; `frozen` is the value of the ref returned by it, which is
what `InfoDisplay` renders; `shouldRefresh` is the flag set by
`triggerDisplayUpdate` (info.tsx 94, 100-103).  The ref behaviour is modelled
from the spec, `usePausableState` being in the util module outside the
reviewed sources: while not paused the ref follows the live props on every
render; while paused it keeps the last pre-pause snapshot. -/
structure InfoDisplayState (α : Type) where
  isPaused : Bool
  frozen : α
  shouldRefresh : Bool
deriving DecidableEq, Repr

/-- One render of `InfoDisplay` with live props `props0` (info.tsx 92-99):
`usePausableState` refreshes the shown value from `props0` when not paused
(modelled from the spec); then, if `shouldRefresh` is set, lines 96-99 write
`props0` into the ref — out-of-band of the pause — and clear the flag. -/
def InfoDisplayState.render (props0 : α) (s : InfoDisplayState α) : InfoDisplayState α :=
  let s1 : InfoDisplayState α := if s.isPaused then s else { s with frozen := props0 }
  if s1.shouldRefresh then { s1 with frozen := props0, shouldRefresh := false } else s1

/-- The `triggerDisplayUpdate` handler (info.tsx 100-103): it awaits one run of
the underlying `triggerUpdate` and then sets `shouldRefresh`.  Returns the new
state together with the number of times `triggerUpdate` was invoked. -/
def InfoDisplayState.triggerDisplayUpdate (s : InfoDisplayState α) : InfoDisplayState α × Nat :=
  ({ s with shouldRefresh := true }, 1)

/-- The pause toggle handed to `InfoStatusBar` (info.tsx 95, 70). -/
def InfoDisplayState.setPaused (p : Bool) (s : InfoDisplayState α) : InfoDisplayState α :=
  { s with isPaused := p }

/-! ## The widget query path (info.tsx 127-133, 207-221) -/

/-- A user widget as returned by the widget query; only its identifier matters
to the pipeline. -/
structure UserWidget where
  widgetSourceId : String
deriving DecidableEq, Repr

/-- Response of `Widget_getWidgets`. -/
structure GetWidgetsResponse where
  widgets : List UserWidget
deriving DecidableEq, Repr

/-- The JSON-RPC "method not found" code. -/
def methodNotFoundCode : Int := -32601

/-- Modelled from the spec: `discardMethodNotFound` lives in the util module,
outside the reviewed sources.  Per the spec, a widget-query failure whose
condition is "method not found" is resolved to `undefined` ("no widgets");
every other failure is re-thrown. -/
def discardMethodNotFound (e : ErrValue) : Except ErrValue (Option GetWidgetsResponse) :=
  if e.code = some methodNotFoundCode then .ok none else .error e

/-- Outcome of the raw `Widget_getWidgets(rs, pos)` call. -/
inductive WidgetFetchOutcome where
  | success (resp : GetWidgetsResponse)
  | failure (err : ErrValue)
deriving DecidableEq, Repr

/-- Result of `Widget_getWidgets(rs, pos).catch(discardMethodNotFound)` as it
reaches `useAsync` (info.tsx 128-130). -/
def widgetQuery (o : WidgetFetchOutcome) : Except ErrValue (Option GetWidgetsResponse) :=
  match o with
  | .success r => .ok (some r)
  | .failure e => discardMethodNotFound e

/-- The widget list `InfoDisplay` renders (info.tsx 132, 207): with
`widgets = widgetResult && widgetResult.widgets`, the `widgets && widgets.map`
block renders one section per widget and nothing when `widgets` is
`undefined`. -/
def renderedWidgets (o : WidgetFetchOutcome) : List UserWidget :=
  match widgetQuery o with
  | .ok (some r) => r.widgets
  | .ok none => []
  | .error _ => []

/-- The widget error reported by `useAsync` (info.tsx 128): present exactly
when the caught query still rejected. -/
def widgetError (o : WidgetFetchOutcome) : Option ErrValue :=
  match widgetQuery o with
  | .ok _ => none
  | .error e => some e

/-! ## Request issue order in one fetch cycle (info.tsx 332-348, 363-366) -/

/-- Primitive operations of the request phase of one fetch cycle. -/
inductive FetchStep where
  | issueGoalsReq
  | issueTermGoalReq
  | awaitAllReq
deriving DecidableEq, Repr

/-- Program-order trace of `triggerUpdate`'s request phase: on the modern path
(`sv?.hasWidgetsV1()`), `goalsReq` is created at line 335 and `termGoalReq` at
line 336; on the legacy path, `goalsReq` at line 339 and `termGoalReq` at line
343; on both paths the combined `Promise.all` is awaited afterwards at line
366. -/
def fetchRequestTrace (hasWidgetsV1 : Bool) : List FetchStep :=
  (if hasWidgetsV1 then [FetchStep.issueGoalsReq, FetchStep.issueTermGoalReq]
   else [FetchStep.issueGoalsReq, FetchStep.issueTermGoalReq]) ++ [FetchStep.awaitAllReq]

/-! ## Copy state to comment (info.tsx 110-120, 54-58) -/

/-- Modelled from the spec: `goalsToString` lives in the goals module, outside
the reviewed sources; the copied text is the pretty-printed goal states joined
together. -/
def goalsToString (gs : InteractiveGoals) : String :=
  String.intercalate ("\n\n") gs.goals

/-- A command sent outward through the editor context. -/
inductive EditorCmd where
  | copyToCommentCmd (text : String)
deriving DecidableEq, Repr

/-- The `copyGoalToComment` value computed by `InfoDisplay` (info.tsx 110-111):
it is defined exactly when `goals` is present, and then copies
`goalsToString goals` to a comment. -/
def copyGoalToComment (goals : Option InteractiveGoals) : Option EditorCmd :=
  match goals with
  | none => none
  | some gs => some (.copyToCommentCmd (goalsToString gs))

/-- Whether `InfoStatusBar` offers the copy-state-to-comment button
(info.tsx 54-58): exactly when `copyGoalToComment` is defined. -/
def copyButtonOffered (c : Option EditorCmd) : Bool :=
  c.isSome

/-- Kinds of actions the editor extension can request (info.tsx 116-125). -/
inductive RequestedActionKind where
  | copyToComment
  | togglePaused
deriving DecidableEq, Repr

/-- Editor commands emitted by the `requestedAction` subscription of
info.tsx 116-120: only the cursor view reacts, only to a `copyToComment`
action, and only when `copyGoalToComment` is defined. -/
def onRequestedAction (kind : InfoKind) (act : RequestedActionKind)
    (goals : Option InteractiveGoals) : List EditorCmd :=
  if kind = .cursor then
    match act with
    | .copyToComment =>
      match copyGoalToComment goals with
      | some c => [c]
      | none => []
    | .togglePaused => []
  else []

/-! ## Scheduler lemmas -/

lemma trigger_of_waiting (ms t : Nat) (a : A) (s : SchedState A) (h : s.waiting = true) :
    SchedState.trigger ms t a s = ({ s with callbackRef := some a }, false) := by
  simp [SchedState.trigger, h]

lemma trigger_fst_callbackRef (ms t : Nat) (a : A) (s : SchedState A) :
    (SchedState.trigger ms t a s).1.callbackRef = some a := by
  unfold SchedState.trigger
  split <;> rfl

lemma trigger_fst_waiting (ms t : Nat) (a : A) (s : SchedState A) :
    (SchedState.trigger ms t a s).1.waiting = true := by
  cases hw : s.waiting <;> simp [SchedState.trigger, hw]

lemma triggerAll_of_waiting (ms : Nat) (tas : List (Nat × A)) (s : SchedState A)
    (h : s.waiting = true) :
    (SchedState.triggerAll ms tas s).waiting = true ∧
    (SchedState.triggerAll ms tas s).fireAt = s.fireAt := by
  induction tas generalizing s with
  | nil => simpa [SchedState.triggerAll] using h
  | cons ta rest ih =>
      have hstep := trigger_of_waiting ms ta.1 ta.2 s h
      have := ih { s with callbackRef := some ta.2 } (by simpa using h)
      simpa [SchedState.triggerAll, hstep] using this

lemma triggerAll_callbackRef (ms : Nat) (tas : List (Nat × A)) (h : tas ≠ [])
    (s : SchedState A) :
    (SchedState.triggerAll ms tas s).callbackRef = some (tas.getLast h).2 := by
  induction tas generalizing s with
  | nil => exact absurd rfl h
  | cons ta rest ih =>
      cases rest with
      | nil =>
          simp only [SchedState.triggerAll, List.foldl_cons, List.foldl_nil, List.getLast_singleton]
          exact trigger_fst_callbackRef ms ta.1 ta.2 s
      | cons tb rest2 =>
          simp only [SchedState.triggerAll, List.foldl_cons] at *
          rw [List.getLast_cons_cons]
          exact ih (by simp) _

lemma triggerAllImmediate_of_waiting (ms : Nat) (tas : List (Nat × A)) (s : SchedState A)
    (h : s.waiting = true) :
    SchedState.triggerAllImmediate ms tas s = true := by
  induction tas generalizing s with
  | nil => rfl
  | cons ta rest ih =>
      have hstep := trigger_of_waiting ms ta.1 ta.2 s h
      have := ih { s with callbackRef := some ta.2 } (by simpa using h)
      simpa [SchedState.triggerAllImmediate, hstep] using this

/-- Claim C3: starting from an idle scheduler, a first trigger at time `t1`
with action `a1` followed by any nonempty burst of further triggers while the
cycle is pending yields: the single timer still fires at `t1 + ms` (never
reset by the later calls), there is still exactly one pending cycle, every
later call resolved immediately without scheduling a timer of its own, and
the one execution that fires runs the action registered by the last call. -/
theorem useDelayedThrottled_coalesces (A : Type) (ms t1 : Nat) (a1 : A)
    (tas : List (Nat × A)) (h : tas ≠ []) :
    (SchedState.triggerAll ms tas (SchedState.trigger ms t1 a1 (SchedState.start A)).1).fireAt
        = some (t1 + ms) ∧
    (SchedState.triggerAll ms tas (SchedState.trigger ms t1 a1 (SchedState.start A)).1).waiting
        = true ∧
    SchedState.triggerAllImmediate ms tas (SchedState.trigger ms t1 a1 (SchedState.start A)).1
        = true ∧
    (SchedState.fire
        (SchedState.triggerAll ms tas (SchedState.trigger ms t1 a1 (SchedState.start A)).1)).2
        = some (tas.getLast h).2 := by
  have hfirst : (SchedState.trigger ms t1 a1 (SchedState.start A)).1
      = { waiting := true, callbackRef := some a1, fireAt := some (t1 + ms) } := by
    simp [SchedState.trigger, SchedState.start]
  have hw : (SchedState.trigger ms t1 a1 (SchedState.start A)).1.waiting = true :=
    trigger_fst_waiting ms t1 a1 _
  obtain ⟨h1, h2⟩ := triggerAll_of_waiting ms tas _ hw
  refine ⟨?_, h1, triggerAllImmediate_of_waiting ms tas _ hw, ?_⟩
  · rw [h2, hfirst]
  · simp [SchedState.fire, triggerAll_callbackRef ms tas h]

/-- Witness for C3: four triggers arriving within a 50-unit interval coalesce
into a single execution of the fourth action, fired at time 50. -/
theorem useDelayedThrottled_coalesces_witness :
    (SchedState.triggerAll 50 [(10, 2), (20, 3), (30, 4)]
        (SchedState.trigger 50 0 1 (SchedState.start Nat)).1).fireAt = some (0 + 50) ∧
    (SchedState.triggerAll 50 [(10, 2), (20, 3), (30, 4)]
        (SchedState.trigger 50 0 1 (SchedState.start Nat)).1).waiting = true ∧
    SchedState.triggerAllImmediate 50 [(10, 2), (20, 3), (30, 4)]
        (SchedState.trigger 50 0 1 (SchedState.start Nat)).1 = true ∧
    (SchedState.fire
        (SchedState.triggerAll 50 [(10, 2), (20, 3), (30, 4)]
          (SchedState.trigger 50 0 1 (SchedState.start Nat)).1)).2
      = some (([(10, 2), (20, 3), (30, 4)] : List (Nat × Nat)).getLast (by decide)).2 :=
  useDelayedThrottled_coalesces Nat 50 0 1 [(10, 2), (20, 3), (30, 4)] (by decide)

/-- Claim C8: the delay handed to the scheduler is 500 time-units exactly when
the backend reports itself processing the document at the tracked position,
and 50 time-units exactly when it reports itself idle there. -/
theorem triggerUpdate_delay_matches_processing
    (allProgress : List (String × List ProcessingInfo)) (p : DocumentPosition) :
    (useIsProcessingAt allProgress p = true ∧
        triggerUpdateDelay (useIsProcessingAt allProgress p) = 500) ∨
    (useIsProcessingAt allProgress p = false ∧
        triggerUpdateDelay (useIsProcessingAt allProgress p) = 50) := by
  cases h : useIsProcessingAt allProgress p <;> simp [triggerUpdateDelay, h]

/-! ## Fetch-cycle claims -/

/-- Claim C2: a fetch cycle failing with the reserved stale-document code
-32801 commits nothing (`displayProps`, the goal and error cells, and the
pending-commit flag are all untouched), records no error, and re-invokes
`triggerUpdate` exactly once, with the position of the failed cycle. -/
theorem stale_document_retries_once_without_commit
    (pos : DocumentPosition) (err : ErrValue) (s : InfoAuxState)
    (hcode : err.code = some (-32801)) (hflag : s.shouldUpdateDisplay = false) :
    (runCycle pos (.failure err) s).2 = [pos] ∧
    (runCycle pos (.failure err) s).1.displayProps = s.displayProps ∧
    (runCycle pos (.failure err) s).1.error = s.error ∧
    (runCycle pos (.failure err) s).1.goals = s.goals ∧
    (runCycle pos (.failure err) s).1.termGoal = s.termGoal ∧
    (runCycle pos (.failure err) s).1.shouldUpdateDisplay = false := by
  simp [runCycle, hcode, hflag]

/-- Witness for C2 at a concrete stale-document failure on the freshly mounted
state. -/
theorem stale_document_retries_once_without_commit_witness :
    (ErrValue.obj (some (-32801)) ("ignored")).code = some (-32801) ∧
    (InfoAuxState.start ⟨"file.lean", 1, 0⟩).shouldUpdateDisplay = false ∧
    ((runCycle ⟨"file.lean", 1, 0⟩ (.failure (.obj (some (-32801)) ("ignored")))
        (InfoAuxState.start ⟨"file.lean", 1, 0⟩)).2 = [⟨"file.lean", 1, 0⟩] ∧
      (runCycle ⟨"file.lean", 1, 0⟩ (.failure (.obj (some (-32801)) ("ignored")))
        (InfoAuxState.start ⟨"file.lean", 1, 0⟩)).1.displayProps
          = (InfoAuxState.start ⟨"file.lean", 1, 0⟩).displayProps ∧
      (runCycle ⟨"file.lean", 1, 0⟩ (.failure (.obj (some (-32801)) ("ignored")))
        (InfoAuxState.start ⟨"file.lean", 1, 0⟩)).1.error
          = (InfoAuxState.start ⟨"file.lean", 1, 0⟩).error ∧
      (runCycle ⟨"file.lean", 1, 0⟩ (.failure (.obj (some (-32801)) ("ignored")))
        (InfoAuxState.start ⟨"file.lean", 1, 0⟩)).1.goals
          = (InfoAuxState.start ⟨"file.lean", 1, 0⟩).goals ∧
      (runCycle ⟨"file.lean", 1, 0⟩ (.failure (.obj (some (-32801)) ("ignored")))
        (InfoAuxState.start ⟨"file.lean", 1, 0⟩)).1.termGoal
          = (InfoAuxState.start ⟨"file.lean", 1, 0⟩).termGoal ∧
      (runCycle ⟨"file.lean", 1, 0⟩ (.failure (.obj (some (-32801)) ("ignored")))
        (InfoAuxState.start ⟨"file.lean", 1, 0⟩)).1.shouldUpdateDisplay = false) :=
  ⟨rfl, rfl,
    stale_document_retries_once_without_commit ⟨"file.lean", 1, 0⟩
      (.obj (some (-32801)) ("ignored")) (InfoAuxState.start ⟨"file.lean", 1, 0⟩) rfl rfl⟩

/-- Claim C5: a failure that is neither the stale-document code nor the empty
sentinel sets status `error` and records the human-readable message built from
the serialized payload; the cycle still performs its full commit — the
committed props are replaced wholesale, the pending flag is consumed — and
the render then shows the error alone, with the goal and term-goal blocks
hidden; no re-fetch is triggered. -/
theorem genuine_error_commits_and_renders_alone
    (pos : DocumentPosition) (err : ErrValue) (s : InfoAuxState) (errS : String)
    (hcode : err.code ≠ some (-32801))
    (hser : err.serialize = some errS)
    (hne : errS ≠ "\x7b\x7d") :
    (runCycle pos (.failure err) s).1.status = .error ∧
    (runCycle pos (.failure err) s).1.error = some ("Error fetching goals: " ++ errS) ∧
    (runCycle pos (.failure err) s).1.displayProps
      = ⟨pos, s.goals, s.termGoal, some ("Error fetching goals: " ++ errS)⟩ ∧
    (runCycle pos (.failure err) s).1.shouldUpdateDisplay = false ∧
    renderInfo (runCycle pos (.failure err) s).1.status
        (runCycle pos (.failure err) s).1.displayProps
      = ⟨some ("Error fetching goals: " ++ errS), none, none⟩ ∧
    (runCycle pos (.failure err) s).2 = [] := by
  simp [runCycle, hcode, InfoAuxState.onError, hser, hne,
    InfoAuxState.commitDisplay, InfoAuxState.mkDisplayProps, renderInfo]

/-- Witness for C5 at a concrete backend failure. -/
theorem genuine_error_commits_and_renders_alone_witness :
    (ErrValue.str ("boom")).code ≠ some (-32801) ∧
    (ErrValue.str ("boom")).serialize = some ("boom") ∧
    ("boom" : String) ≠ "\x7b\x7d" ∧
    ((runCycle ⟨"file.lean", 1, 0⟩ (.failure (.str ("boom")))
        (InfoAuxState.start ⟨"file.lean", 1, 0⟩)).1.status = .error ∧
      (runCycle ⟨"file.lean", 1, 0⟩ (.failure (.str ("boom")))
        (InfoAuxState.start ⟨"file.lean", 1, 0⟩)).1.error
          = some ("Error fetching goals: " ++ "boom") ∧
      (runCycle ⟨"file.lean", 1, 0⟩ (.failure (.str ("boom")))
        (InfoAuxState.start ⟨"file.lean", 1, 0⟩)).1.displayProps
          = ⟨⟨"file.lean", 1, 0⟩, (InfoAuxState.start ⟨"file.lean", 1, 0⟩).goals,
             (InfoAuxState.start ⟨"file.lean", 1, 0⟩).termGoal,
             some ("Error fetching goals: " ++ "boom")⟩ ∧
      (runCycle ⟨"file.lean", 1, 0⟩ (.failure (.str ("boom")))
        (InfoAuxState.start ⟨"file.lean", 1, 0⟩)).1.shouldUpdateDisplay = false ∧
      renderInfo (runCycle ⟨"file.lean", 1, 0⟩ (.failure (.str ("boom")))
          (InfoAuxState.start ⟨"file.lean", 1, 0⟩)).1.status
        (runCycle ⟨"file.lean", 1, 0⟩ (.failure (.str ("boom")))
          (InfoAuxState.start ⟨"file.lean", 1, 0⟩)).1.displayProps
          = ⟨some ("Error fetching goals: " ++ "boom"), none, none⟩ ∧
      (runCycle ⟨"file.lean", 1, 0⟩ (.failure (.str ("boom")))
        (InfoAuxState.start ⟨"file.lean", 1, 0⟩)).2 = []) :=
  ⟨by decide, rfl, by decide,
    genuine_error_commits_and_renders_alone ⟨"file.lean", 1, 0⟩ (.str ("boom"))
      (InfoAuxState.start ⟨"file.lean", 1, 0⟩) ("boom") (by decide) rfl (by decide)⟩

/-- Claim C6: a failure whose serialization is the empty-object sentinel (or
`undefined`) clears the error cell — also in the committed props — while the
`onError` guard leaves the status cell untouched on every state; the status
the cycle ends with is the `updating` it set on entry, not `error`. -/
theorem empty_sentinel_clears_error_keeps_status
    (pos : DocumentPosition) (err : ErrValue) (s : InfoAuxState)
    (hcode : err.code ≠ some (-32801))
    (hser : err.serialize = none ∨ err.serialize = some ("\x7b\x7d")) :
    (runCycle pos (.failure err) s).1.error = none ∧
    (runCycle pos (.failure err) s).1.status = .updating ∧
    (s.onError err).status = s.status ∧
    (s.onError err).error = none ∧
    (runCycle pos (.failure err) s).1.displayProps = ⟨pos, s.goals, s.termGoal, none⟩ := by
  rcases hser with h | h <;>
    simp [runCycle, hcode, InfoAuxState.onError, h,
      InfoAuxState.commitDisplay, InfoAuxState.mkDisplayProps]

/-- Witness for C6 at a failure serializing to the empty-object sentinel. -/
theorem empty_sentinel_clears_error_keeps_status_witness :
    (ErrValue.obj none ("\x7b\x7d")).code ≠ some (-32801) ∧
    ((ErrValue.obj none ("\x7b\x7d")).serialize = none ∨
      (ErrValue.obj none ("\x7b\x7d")).serialize = some ("\x7b\x7d")) ∧
    ((runCycle ⟨"file.lean", 1, 0⟩ (.failure (.obj none ("\x7b\x7d")))
        (InfoAuxState.start ⟨"file.lean", 1, 0⟩)).1.error = none ∧
      (runCycle ⟨"file.lean", 1, 0⟩ (.failure (.obj none ("\x7b\x7d")))
        (InfoAuxState.start ⟨"file.lean", 1, 0⟩)).1.status = .updating ∧
      ((InfoAuxState.start ⟨"file.lean", 1, 0⟩).onError (.obj none ("\x7b\x7d"))).status
        = (InfoAuxState.start ⟨"file.lean", 1, 0⟩).status ∧
      ((InfoAuxState.start ⟨"file.lean", 1, 0⟩).onError (.obj none ("\x7b\x7d"))).error = none ∧
      (runCycle ⟨"file.lean", 1, 0⟩ (.failure (.obj none ("\x7b\x7d")))
        (InfoAuxState.start ⟨"file.lean", 1, 0⟩)).1.displayProps
          = ⟨⟨"file.lean", 1, 0⟩, none, none, none⟩) :=
  ⟨by decide, Or.inr rfl,
    empty_sentinel_clears_error_keeps_status ⟨"file.lean", 1, 0⟩ (.obj none ("\x7b\x7d"))
      (InfoAuxState.start ⟨"file.lean", 1, 0⟩) (by decide) (Or.inr rfl)⟩

/-- Claim C7: when the widget query fails with the "method not found"
condition, the rendered widget list is empty and no widget error is reported;
the fetch-cycle status is untouched by the widget path, so after a successful
cycle it is `ready` — not `error` — and no error block is rendered. -/
theorem widget_method_not_found_not_an_error
    (pos : DocumentPosition) (s : InfoAuxState) (gs : Option InteractiveGoals)
    (tg : Option InteractiveGoal) (e : ErrValue)
    (hcode : e.code = some methodNotFoundCode) :
    renderedWidgets (.failure e) = [] ∧
    widgetError (.failure e) = none ∧
    (runCycle pos (.success gs tg) s).1.status = .ready ∧
    (renderInfo (runCycle pos (.success gs tg) s).1.status
        (runCycle pos (.success gs tg) s).1.displayProps).shownError = none := by
  refine ⟨?_, ?_, ?_, ?_⟩ <;>
    simp [renderedWidgets, widgetError, widgetQuery, discardMethodNotFound, hcode,
      runCycle, InfoAuxState.commitDisplay, InfoAuxState.mkDisplayProps, renderInfo]

/-- Witness for C7 at a concrete method-not-found failure after a successful
goal fetch. -/
theorem widget_method_not_found_not_an_error_witness :
    (ErrValue.obj (some (-32601)) ("no such method")).code = some methodNotFoundCode ∧
    (renderedWidgets (.failure (.obj (some (-32601)) ("no such method"))) = [] ∧
      widgetError (.failure (.obj (some (-32601)) ("no such method"))) = none ∧
      (runCycle ⟨"file.lean", 1, 0⟩ (.success (some ⟨["⊢ True"]⟩) none)
        (InfoAuxState.start ⟨"file.lean", 1, 0⟩)).1.status = .ready ∧
      (renderInfo (runCycle ⟨"file.lean", 1, 0⟩ (.success (some ⟨["⊢ True"]⟩) none)
          (InfoAuxState.start ⟨"file.lean", 1, 0⟩)).1.status
        (runCycle ⟨"file.lean", 1, 0⟩ (.success (some ⟨["⊢ True"]⟩) none)
          (InfoAuxState.start ⟨"file.lean", 1, 0⟩)).1.displayProps).shownError = none) :=
  ⟨rfl,
    widget_method_not_found_not_an_error ⟨"file.lean", 1, 0⟩
      (InfoAuxState.start ⟨"file.lean", 1, 0⟩) (some ⟨["⊢ True"]⟩) none
      (.obj (some (-32601)) ("no such method")) rfl⟩

/-- Claim C9: on both protocol paths the primary-goal request and the
term-goal request appear in the request trace strictly before the combined
await, so both promises exist before either is awaited. -/
theorem goal_requests_issued_before_await (v : Bool) :
    FetchStep.issueGoalsReq ∈ fetchRequestTrace v ∧
    FetchStep.issueTermGoalReq ∈ fetchRequestTrace v ∧
    (fetchRequestTrace v).indexOf FetchStep.issueGoalsReq
      < (fetchRequestTrace v).indexOf FetchStep.awaitAllReq ∧
    (fetchRequestTrace v).indexOf FetchStep.issueTermGoalReq
      < (fetchRequestTrace v).indexOf FetchStep.awaitAllReq := by
  cases v <;> decide

/-- Claim C10: `copyGoalToComment` is defined exactly when a goal list is
present — with no goals the button is not offered and an editor-requested
copy-to-comment action on the cursor view emits nothing, while with goals it
copies the rendered goal text. -/
theorem copy_goal_to_comment_requires_goals
    (gs : InteractiveGoals) (act : RequestedActionKind) :
    copyGoalToComment none = none ∧
    copyButtonOffered (copyGoalToComment none) = false ∧
    onRequestedAction .cursor act none = [] ∧
    copyGoalToComment (some gs) = some (.copyToCommentCmd (goalsToString gs)) ∧
    copyButtonOffered (copyGoalToComment (some gs)) = true := by
  cases act <;> simp [copyGoalToComment, copyButtonOffered, onRequestedAction]

/-- Claim C4: while the pause flag is set and no refresh is pending, a render
with any live props leaves the display state completely unchanged; an explicit
refresh invokes the underlying fetch trigger exactly once, applies the fresh
props to the rendered state exactly once at the following render — leaving the
pause flag set — and a further render with yet newer live props changes
nothing more. -/
theorem paused_display_frozen_until_refresh (α : Type) (s : InfoDisplayState α)
    (live live2 live3 : α) (hp : s.isPaused = true) (hr : s.shouldRefresh = false) :
    s.render live = s ∧
    (s.triggerDisplayUpdate).2 = 1 ∧
    (s.triggerDisplayUpdate).1.isPaused = true ∧
    ((s.triggerDisplayUpdate).1.render live2).frozen = live2 ∧
    ((s.triggerDisplayUpdate).1.render live2).isPaused = true ∧
    ((s.triggerDisplayUpdate).1.render live2).shouldRefresh = false ∧
    (((s.triggerDisplayUpdate).1.render live2).render live3).frozen = live2 := by
  refine ⟨?_, rfl, ?_, ?_, ?_, ?_, ?_⟩ <;>
    simp [InfoDisplayState.render, InfoDisplayState.triggerDisplayUpdate, hp, hr]

/-- Witness for C4 on a concrete paused state. -/
theorem paused_display_frozen_until_refresh_witness :
    ((⟨true, 0, false⟩ : InfoDisplayState Nat).isPaused = true) ∧
    ((⟨true, 0, false⟩ : InfoDisplayState Nat).shouldRefresh = false) ∧
    ((⟨true, 0, false⟩ : InfoDisplayState Nat).render 5 = ⟨true, 0, false⟩ ∧
      ((⟨true, 0, false⟩ : InfoDisplayState Nat).triggerDisplayUpdate).2 = 1 ∧
      ((⟨true, 0, false⟩ : InfoDisplayState Nat).triggerDisplayUpdate).1.isPaused = true ∧
      (((⟨true, 0, false⟩ : InfoDisplayState Nat).triggerDisplayUpdate).1.render 6).frozen = 6 ∧
      (((⟨true, 0, false⟩ : InfoDisplayState Nat).triggerDisplayUpdate).1.render 6).isPaused
        = true ∧
      (((⟨true, 0, false⟩ : InfoDisplayState Nat).triggerDisplayUpdate).1.render 6).shouldRefresh
        = false ∧
      ((((⟨true, 0, false⟩ : InfoDisplayState Nat).triggerDisplayUpdate).1.render 6).render
          7).frozen = 6) :=
  ⟨rfl, rfl, paused_display_frozen_until_refresh Nat ⟨true, 0, false⟩ 5 6 7 rfl rfl⟩

/-! ## Atomicity of the committed display (claim C1) -/

lemma runCycleT_erase (cyc : Nat) (pos : DocumentPosition) (o : FetchOutcome)
    (s : TrackedState) :
    (runCycleT cyc pos o s).1.erase = (runCycle pos o s.erase).1 ∧
    (runCycleT cyc pos o s).2 = (runCycle pos o s.erase).2 := by
  cases o with
  | success gs tg =>
      simp [runCycleT, runCycle, TrackedState.erase, TrackedProps.erase,
        TrackedState.commitDisplay, TrackedState.mkDisplayProps,
        InfoAuxState.commitDisplay, InfoAuxState.mkDisplayProps]
  | failure err =>
      by_cases hc : err.code = some (-32801)
      · simp [runCycleT, runCycle, hc, TrackedState.erase, TrackedProps.erase]
      · rcases hser : err.serialize with _ | errS
        · simp [runCycleT, runCycle, hc, TrackedState.onError, InfoAuxState.onError, hser,
            TrackedState.erase, TrackedProps.erase, TrackedState.commitDisplay,
            TrackedState.mkDisplayProps, InfoAuxState.commitDisplay,
            InfoAuxState.mkDisplayProps]
        · by_cases hne : errS = "\x7b\x7d" <;>
            simp [runCycleT, runCycle, hc, TrackedState.onError, InfoAuxState.onError, hser,
              hne, TrackedState.erase, TrackedProps.erase, TrackedState.commitDisplay,
              TrackedState.mkDisplayProps, InfoAuxState.commitDisplay,
              InfoAuxState.mkDisplayProps]

lemma runCycleT_src_eq (cyc : Nat) (pos : DocumentPosition) (o : FetchOutcome)
    (s : TrackedState)
    (h1 : s.goals.src = s.termGoal.src)
    (h2 : s.displayProps.goals.src = s.displayProps.termGoal.src) :
    (runCycleT cyc pos o s).1.goals.src = (runCycleT cyc pos o s).1.termGoal.src ∧
    (runCycleT cyc pos o s).1.displayProps.goals.src
      = (runCycleT cyc pos o s).1.displayProps.termGoal.src := by
  cases o with
  | success gs tg =>
      simp [runCycleT, TrackedState.commitDisplay, TrackedState.mkDisplayProps]
  | failure err =>
      by_cases hc : err.code = some (-32801)
      · simpa [runCycleT, hc] using ⟨h1, h2⟩
      · rcases hser : err.serialize with _ | errS
        · simpa [runCycleT, hc, TrackedState.onError, hser, TrackedState.commitDisplay,
            TrackedState.mkDisplayProps] using h1
        · by_cases hne : errS = "\x7b\x7d" <;>
            simpa [runCycleT, hc, TrackedState.onError, hser, hne,
              TrackedState.commitDisplay, TrackedState.mkDisplayProps] using h1

lemma runCyclesT_src_eq (pos : DocumentPosition) (outcomes : List FetchOutcome) (n : Nat)
    (s : TrackedState)
    (h1 : s.goals.src = s.termGoal.src)
    (h2 : s.displayProps.goals.src = s.displayProps.termGoal.src) :
    (runCyclesT pos n outcomes s).goals.src = (runCyclesT pos n outcomes s).termGoal.src ∧
    (runCyclesT pos n outcomes s).displayProps.goals.src
      = (runCyclesT pos n outcomes s).displayProps.termGoal.src := by
  induction outcomes generalizing n s with
  | nil => exact ⟨h1, h2⟩
  | cons o os ih =>
      obtain ⟨g1, g2⟩ := runCycleT_src_eq n pos o s h1 h2
      exact ih (n + 1) _ g1 g2

/-- Claim C1 (amended): after any sequence of fetch cycles, the committed goal
list and term goal always carry the same source-cycle tag — the commit
replaces them together, so goal data is never torn — and the render never
combines an error with goal data: either no error is shown, or the goal and
term-goal blocks are both hidden. -/
theorem committed_goals_and_term_goal_share_cycle
    (pos : DocumentPosition) (outcomes : List FetchOutcome) :
    (runCyclesT pos 1 outcomes (TrackedState.start pos)).displayProps.goals.src
      = (runCyclesT pos 1 outcomes (TrackedState.start pos)).displayProps.termGoal.src ∧
    (runCyclesT pos 1 outcomes (TrackedState.start pos)).goals.src
      = (runCyclesT pos 1 outcomes (TrackedState.start pos)).termGoal.src ∧
    ((renderInfo (runCyclesT pos 1 outcomes (TrackedState.start pos)).status.val
        (runCyclesT pos 1 outcomes (TrackedState.start pos)).displayProps.erase).shownError
          = none ∨
      ((renderInfo (runCyclesT pos 1 outcomes (TrackedState.start pos)).status.val
          (runCyclesT pos 1 outcomes (TrackedState.start pos)).displayProps.erase).shownGoals
            = none ∧
        (renderInfo (runCyclesT pos 1 outcomes (TrackedState.start pos)).status.val
          (runCyclesT pos 1 outcomes
            (TrackedState.start pos)).displayProps.erase).shownTermGoal = none)) := by
  obtain ⟨g1, g2⟩ := runCyclesT_src_eq pos outcomes 1 (TrackedState.start pos) rfl rfl
  refine ⟨g2, g1, ?_⟩
  by_cases hst : (runCyclesT pos 1 outcomes (TrackedState.start pos)).status.val = .error
  · exact Or.inr (by simp [renderInfo, hst])
  · exact Or.inl (by simp [renderInfo, hst])

/-- Counterexample to C1 as stated: cycle 1 fails with a genuine backend error
and commits its message; cycle 2 succeeds and commits its goals — but the
committed display now carries the goal list written by cycle 2 next to the
error message written by cycle 1 (a successful cycle never clears the error
cell), so the committed fields do not all originate from one cycle. -/
theorem committed_fields_mix_cycles_cex :
    ((runCycleT 2 ⟨"file.lean", 1, 0⟩ (.success (some ⟨["⊢ True"]⟩) none)
        (runCycleT 1 ⟨"file.lean", 1, 0⟩ (.failure (.str ("boom")))
          (TrackedState.start ⟨"file.lean", 1, 0⟩)).1).1.displayProps.goals.src = 2) ∧
    ((runCycleT 2 ⟨"file.lean", 1, 0⟩ (.success (some ⟨["⊢ True"]⟩) none)
        (runCycleT 1 ⟨"file.lean", 1, 0⟩ (.failure (.str ("boom")))
          (TrackedState.start ⟨"file.lean", 1, 0⟩)).1).1.displayProps.goals.val
      = some ⟨["⊢ True"]⟩) ∧
    ((runCycleT 2 ⟨"file.lean", 1, 0⟩ (.success (some ⟨["⊢ True"]⟩) none)
        (runCycleT 1 ⟨"file.lean", 1, 0⟩ (.failure (.str ("boom")))
          (TrackedState.start ⟨"file.lean", 1, 0⟩)).1).1.displayProps.error.src = 1) ∧
    ((runCycleT 2 ⟨"file.lean", 1, 0⟩ (.success (some ⟨["⊢ True"]⟩) none)
        (runCycleT 1 ⟨"file.lean", 1, 0⟩ (.failure (.str ("boom")))
          (TrackedState.start ⟨"file.lean", 1, 0⟩)).1).1.displayProps.error.val
      = some ("Error fetching goals: boom")) ∧
    ((runCycleT 2 ⟨"file.lean", 1, 0⟩ (.success (some ⟨["⊢ True"]⟩) none)
        (runCycleT 1 ⟨"file.lean", 1, 0⟩ (.failure (.str ("boom")))
          (TrackedState.start ⟨"file.lean", 1, 0⟩)).1).1.status.val = .ready) :=
  ⟨rfl, rfl, rfl, rfl, rfl⟩

end Infoview
